import Mathlib

/-!
Shallow embedding of the catchbot simulation core (src/game.js).

Numeric values of the JavaScript source are modelled as exact rationals;
score, misses and the pity countdown are naturals (the source clamps them
at 0 with Math.max, which coincides with truncated subtraction on Nat).
Rendering, audio and DOM concerns of the source are outside the model;
only the simulation state and its transition functions are embedded.
-/

namespace Catchbot

/-- Base playfield width (src/game.js line 6). -/
def BASE_WIDTH : ℚ := 1314

/-- Base playfield height (src/game.js line 7). -/
def BASE_HEIGHT : ℚ := 768

/-- Gravity acceleration constant (src/game.js line 8). -/
def GRAVITY : ℚ := 2100

/-- Maximum misses before game over (src/game.js line 17). -/
def MAX_MISSES : ℕ := 5

/-- Width of the catch hole of the cart (src/game.js line 21). -/
def CART_HOLE_WIDTH : ℚ := 120

/-- Height of the catch hole of the cart (src/game.js line 22). -/
def CART_HOLE_HEIGHT : ℚ := 28

/-- Robot sprite scale, 1.05 (src/game.js line 23). -/
def ROBOT_SCALE : ℚ := 21/20

/-- Score threshold unlocking the fish bonus event (src/game.js line 26). -/
def FISH_UNLOCK_SCORE : ℕ := 300

/-- Hit radius of the fish catch test (src/game.js line 29). -/
def FISH_HIT_RADIUS : ℚ := 120

/-- Duration of the ascend arc of the fish, 1.1 s (src/game.js line 30). -/
def FISH_UP_DURATION : ℚ := 11/10

/-- Duration of the descend arc of the fish, 1.05 s (src/game.js line 31). -/
def FISH_DOWN_DURATION : ℚ := 21/20

/-- Reset constant of the pity countdown (src/game.js line 32). -/
def MAGIC_COUNTDOWN : ℕ := 30

/-- Probability of a random magic (recovery) spawn, 0.08 (src/game.js line 33). -/
def MAGIC_CHANCE : ℚ := 8/100

/-- Mutable fields of the SpawnScrewIntellect object (src/game.js lines 70-128).
The constant fields of that object are separate definitions below. -/
structure Intellect where
  nextRelaxationScore : ℕ
  bestDifficultyInterval : ℚ
  pendingRelaxations : ℕ
deriving DecidableEq

namespace Intellect

/-- intellect.minInterval (src/game.js line 71). -/
def minInterval : ℚ := 250

/-- intellect.maxInterval (src/game.js line 72). -/
def maxInterval : ℚ := 2500

/-- intellect.waveRelaxationBoost (src/game.js line 73). -/
def waveRelaxationBoost : ℚ := 120

/-- intellect.fishRelaxationBoost (src/game.js line 74). -/
def fishRelaxationBoost : ℚ := 200

/-- intellect.relaxationHeadroom (src/game.js line 75). -/
def relaxationHeadroom : ℚ := 200

/-- intellect.minimumRelaxationCap (src/game.js line 76). -/
def minimumRelaxationCap : ℚ := 900

/-- intellect.relaxationTighteningScore (src/game.js line 77). -/
def relaxationTighteningScore : ℚ := 120

/-- intellect.relaxationEntryEpsilon (src/game.js line 78). -/
def relaxationEntryEpsilon : ℚ := 20

/-- intellect.waveScoreStep (src/game.js line 79). -/
def waveScoreStep : ℕ := 25

end Intellect

/-- The game state (src/game.js lines 154-165). The fields targetX and
lastSpawnTime belong to steering and wall-clock scheduling; lastSpawnTime is
modelled separately where the spawn-timing claims need it. -/
structure GameState where
  score : ℕ
  best : ℕ
  misses : ℕ
  spawnInterval : ℚ
  playing : Bool
  fishUnlocked : Bool
  magicCountdown : ℕ
  forceMagic : Bool
deriving DecidableEq

/-- Initial game state as set by buildScene (src/game.js lines 268-275). -/
def initialGameState : GameState :=
  { score := 0, best := 0, misses := 0, spawnInterval := 2000,
    playing := false, fishUnlocked := false, magicCountdown := 0,
    forceMagic := false }

/-- intellect.relaxationCeiling (src/game.js lines 122-127); the source reads
gameState.score globally, passed here as an argument. -/
def Intellect.relaxationCeiling (it : Intellect) (score : ℕ) : ℚ :=
  let scoreFactor := min 1 ((score : ℚ) / Intellect.relaxationTighteningScore)
  let scoreCap := Intellect.maxInterval -
    (Intellect.maxInterval - Intellect.minimumRelaxationCap) * scoreFactor
  let progressCap := max Intellect.minInterval
    (it.bestDifficultyInterval + Intellect.relaxationHeadroom)
  min scoreCap progressCap

/-- intellect.maybeRelax (src/game.js lines 99-108). Returns the updated
intellect state and the updated spawn interval. -/
def Intellect.maybeRelax (it : Intellect) (spawnInterval : ℚ) (score : ℕ) :
    Intellect × ℚ :=
  if score < it.nextRelaxationScore then (it, spawnInterval)
  else if it.bestDifficultyInterval + Intellect.relaxationEntryEpsilon < spawnInterval then
    (it, spawnInterval)
  else
    let eased := spawnInterval + Intellect.waveRelaxationBoost
    let capped := min (it.relaxationCeiling score) eased
    ({ it with nextRelaxationScore := it.nextRelaxationScore + Intellect.waveScoreStep,
               pendingRelaxations := it.pendingRelaxations + 1 },
     max spawnInterval capped)

/-- The tightening step at the head of intellect.trigger (src/game.js
lines 90-94): a large step while the interval is above 500, a small step
below, clamped at minInterval. -/
def tightenInterval (si : ℚ) : ℚ :=
  if 500 < si then max Intellect.minInterval (si - 96/100)
  else max Intellect.minInterval (si - 8/100)

/-- intellect.trigger (src/game.js lines 88-98): tighten, then maybe relax,
then fold the result into bestDifficultyInterval and the game state. -/
def Intellect.trigger (it : Intellect) (s : GameState) : Intellect × GameState :=
  let r := it.maybeRelax (tightenInterval s.spawnInterval) s.score
  ({ r.1 with bestDifficultyInterval := min r.1.bestDifficultyInterval r.2 },
   { s with spawnInterval := r.2 })

/-- intellect.applyFishRelaxation (src/game.js lines 116-121), the mercy
relaxation applied after the fish penalty. -/
def Intellect.applyFishRelaxation (it : Intellect) (s : GameState) : GameState :=
  if it.bestDifficultyInterval + Intellect.relaxationEntryEpsilon < s.spawnInterval then s
  else
    let boosted := s.spawnInterval + Intellect.fishRelaxationBoost
    let capped := min (it.relaxationCeiling s.score) boosted
    { s with spawnInterval := max s.spawnInterval capped }

/-- intellect.reset (src/game.js lines 83-87). -/
def Intellect.reset (it : Intellect) (spawnInterval : ℚ) : Intellect :=
  { it with nextRelaxationScore := Intellect.waveScoreStep,
            pendingRelaxations := 0,
            bestDifficultyInterval := spawnInterval }

/-- The intellect state after buildScene: the literal initial field values of
the source object coincide with reset applied at interval 2000
(src/game.js lines 80-82 and 279). -/
def intellectInit : Intellect :=
  { nextRelaxationScore := 25, bestDifficultyInterval := 2000,
    pendingRelaxations := 0 }

/-- The kind tag of a thrown item (the sprite.type field, src/game.js
lines 383-387): screw is the standard item, magic the recovery item. -/
inductive ItemKind
| screw
| magic
deriving DecidableEq

/-- A live thrown item: position, velocity and kind (src/game.js
lines 384-392). -/
structure Item where
  x : ℚ
  y : ℚ
  vx : ℚ
  vy : ℚ
  type : ItemKind
deriving DecidableEq

/-- A 2D point, as used by the fish arcs. -/
structure Vec2 where
  x : ℚ
  y : ℚ
deriving DecidableEq

/-- Phase of the fish flight (activeFish.phase, src/game.js line 593). -/
inductive FishPhase
| up
| down
deriving DecidableEq

/-- The active fish record (src/game.js lines 591-602); the two durations are
the constants FISH_UP_DURATION and FISH_DOWN_DURATION at every spawn, so they
are used directly rather than stored. -/
structure Fish where
  phase : FishPhase
  t : ℚ
  start : Vec2
  target : Vec2
  splash : Vec2
  controlUp : Vec2
  controlDown : Vec2
deriving DecidableEq

/-- The world state the game-over claims need: game state, live item list,
the active fish and the fish catch-window flag (src/game.js lines 143-165). -/
structure World where
  gs : GameState
  items : List Item
  activeFish : Option Fish
  fishWindowClosed : Bool
deriving DecidableEq

/-- nextSpawnType (src/game.js lines 396-406). The random draw of the source
is passed in as the argument r; the forced branch does not consult it. -/
def nextSpawnType (s : GameState) (r : ℚ) : GameState × ItemKind :=
  if s.forceMagic ∧ 0 < s.misses then
    ({ s with forceMagic := false, magicCountdown := MAGIC_COUNTDOWN },
     ItemKind.magic)
  else if 0 < s.misses ∧ r < MAGIC_CHANCE then (s, ItemKind.magic)
  else (s, ItemKind.screw)

/-- handleCatch (src/game.js lines 416-441), restricted to the state effects:
score, misses, pity countdown, force flag and the best mirror. HUD text,
sound and sprite removal are presentation effects outside the model. -/
def handleCatch (s : GameState) (k : ItemKind) : GameState :=
  let s1 :=
    match k with
    | ItemKind.magic =>
        { s with score := s.score + 10, misses := s.misses - 1,
                 magicCountdown := MAGIC_COUNTDOWN }
    | ItemKind.screw =>
        let s2 := { s with score := s.score + 10 }
        if 0 < s2.misses then
          let mc := s2.magicCountdown - 1
          { s2 with magicCountdown := mc,
                    forceMagic := if mc = 0 then true else s2.forceMagic }
        else s2
  if s1.best < s1.score then { s1 with best := s1.score } else s1

/-- A single standard catch. -/
def catchStandard (s : GameState) : GameState := handleCatch s ItemKind.screw

/-- requestMagicGuarantee (src/game.js lines 554-561). -/
def requestMagicGuarantee (s : GameState) : GameState :=
  if 0 < s.misses then
    { s with magicCountdown := MAGIC_COUNTDOWN, forceMagic := false }
  else { s with magicCountdown := 0 }

/-- endGame (src/game.js lines 454-458): stop play and clear the items list.
The source touches neither activeFish nor fishWindowClosed. -/
def endGame (w : World) : World :=
  { w with gs := { w.gs with playing := false }, items := [] }

/-- handleMiss (src/game.js lines 443-452): remove the item, count the miss,
restart the pity clock, and end the game at MAX_MISSES. -/
def handleMiss (w : World) (item : Item) : World :=
  let items1 := w.items.erase item
  let s1 := requestMagicGuarantee { w.gs with misses := w.gs.misses + 1 }
  let w1 := { w with items := items1, gs := s1 }
  if MAX_MISSES ≤ s1.misses then endGame w1 else w1

/-- The dt computation at the head of update (src/game.js line 462): the raw
ticker delta divided by 60, with no clamping. -/
def updateDt (delta : ℚ) : ℚ := delta / 60

/-- The per-item integration step of update (src/game.js lines 491-495):
g = GRAVITY * dt is applied to vy first, then the position advances with the
updated vy (semi-implicit Euler). -/
def stepItem (dt : ℚ) (i : Item) : Item :=
  let g := GRAVITY * dt
  let vy1 := i.vy + g * dt
  { i with vy := vy1, x := i.x + i.vx * dt, y := i.y + vy1 * dt }

/-- The spawn-cadence test of update (src/game.js line 522): an item spawns
when now - lastSpawnTime exceeds spawnInterval, with now the wall clock. -/
def spawnDue (now lastSpawnTime spawnInterval : ℚ) : Bool :=
  decide (spawnInterval < now - lastSpawnTime)

/-- The gating of maybeSpawnFish (src/game.js lines 563-568): a fish spawns
when unlocked, none is active, and the wall clock has reached nextFishAt. -/
def maybeSpawnFishFires (fishUnlocked hasActiveFish : Bool)
    (now nextFishAt : ℚ) : Bool :=
  fishUnlocked && !hasActiveFish && decide (nextFishAt ≤ now)

/-- togglePause (src/game.js lines 366-369) acting on the state it can reach:
it flips the ticker when playing and touches nothing in the game state. -/
def togglePause (s : GameState) (tickerStarted : Bool) : GameState × Bool :=
  if s.playing then (s, !tickerStarted) else (s, tickerStarted)

/-- The cart hitbox data read back from the sprite each tick: its centre and
the sprite scale factors (src/game.js lines 641-642). The centre is treated
as externally supplied, as the spec does for the receptacle hitbox. -/
structure Cart where
  center : Vec2
  scaleX : ℚ
  scaleY : ℚ
deriving DecidableEq

/-- cartTop of checkFishCatchWindow (src/game.js line 643). -/
def cartTop (c : Cart) : ℚ :=
  c.center.y - CART_HOLE_HEIGHT * c.scaleY * ROBOT_SCALE * (1/2)

/-- holeW of checkFishCatchWindow (src/game.js line 653). -/
def cartHoleW (c : Cart) : ℚ :=
  CART_HOLE_WIDTH * c.scaleX * ROBOT_SCALE

/-- quadPoint (src/game.js lines 607-612): a quadratic Bezier point. -/
def quadPoint (p0 p1 p2 : Vec2) (t : ℚ) : Vec2 :=
  let inv := 1 - t
  { x := inv * inv * p0.x + 2 * inv * t * p1.x + t * t * p2.x,
    y := inv * inv * p0.y + 2 * inv * t * p1.y + t * t * p2.y }

/-- checkFishCatchWindow (src/game.js lines 638-659). Returns the updated
fishWindowClosed flag and whether the fish was caught this tick. The distance
test hypot dx dy <= FISH_HIT_RADIUS of the source is encoded squared, which
is equivalent since both sides are nonnegative. -/
def checkFishCatchWindow (c : Cart) (closed : Bool) (pos : Vec2) :
    Bool × Bool :=
  if pos.y < cartTop c - 36 then (true, false)
  else if closed then (closed, false)
  else if pos.y ≤ cartTop c + 10 then
    let dx := pos.x - c.center.x
    let dy := pos.y - c.center.y
    if dx ^ 2 + dy ^ 2 ≤ FISH_HIT_RADIUS ^ 2 ∧ |dx| < cartHoleW c / 2 then
      (closed, true)
    else (closed, false)
  else (closed, false)

/-- updateFish for one tick (src/game.js lines 614-636), together with the
disposal effects on activeFish and fishWindowClosed (lines 661-681):
returns the fishWindowClosed flag after the tick, the surviving fish
(none when disposed), and whether a catch fired this tick. -/
def updateFish (c : Cart) (closed : Bool) (f : Fish) (dt : ℚ) :
    Bool × Option Fish × Bool :=
  match f.phase with
  | FishPhase.up =>
      let t1 := f.t + dt / FISH_UP_DURATION
      let pos := quadPoint f.start f.controlUp f.target (min 1 t1)
      let r := checkFishCatchWindow c closed pos
      if r.2 then (false, none, true)
      else if 1 ≤ t1 then (r.1, some { f with phase := FishPhase.down, t := 0 }, false)
      else (r.1, some { f with t := t1 }, false)
  | FishPhase.down =>
      let t1 := f.t + dt / FISH_DOWN_DURATION
      let pos := quadPoint f.target f.controlDown f.splash (min 1 t1)
      if 1 ≤ t1 ∨ BASE_HEIGHT + 20 < pos.y then (false, none, false)
      else (closed, some { f with t := t1 }, false)

/-- Whether any tick of the trace catches the fish: each input is the cart
hitbox and dt of one tick; the trace ends when the fish is disposed. -/
def caughtInTrace : List (Cart × ℚ) → Bool → Option Fish → Bool
  | [], _, _ => false
  | _ :: _, _, none => false
  | (c, dt) :: rest, closed, some f =>
      let r := updateFish c closed f dt
      r.2.2 || caughtInTrace rest r.1 r.2.1

/-! Sample states for witnesses and counterexamples. -/

/-- A sample fish spawn with arbitrary but concrete arc data. -/
def fishSample : Fish :=
  ⟨FishPhase.up, 0, ⟨82, 678⟩, ⟨600, 300⟩, ⟨178, 744⟩, ⟨392, 520⟩, ⟨600, 160⟩⟩

/-- A sample live screw item. -/
def itemSample : Item := ⟨100, 900, 240, 300, ItemKind.screw⟩

/-- A world one miss away from game over, with an active bonus fish. -/
def worldSample : World :=
  { gs := { initialGameState with playing := true, misses := 4 },
    items := [itemSample], activeFish := some fishSample,
    fishWindowClosed := false }

/-- A sample cart hitbox at unit sprite scale. -/
def cartSample : Cart := ⟨⟨0, 100⟩, 1, 1⟩

/-- A state with one outstanding miss and the pity countdown at its reset
constant. -/
def pityStartState : GameState :=
  { initialGameState with
    playing := true
    misses := 1
    magicCountdown := MAGIC_COUNTDOWN }

/-- An intellect state in which the spawn interval already exceeds the
relaxation ceiling: best interval 1900 with score 120 gives ceiling 900. -/
def intellectLate : Intellect := ⟨50, 1900, 0⟩

/-- A sample item for the negative-dt experiment. -/
def itemNegDt : Item := ⟨100, 100, 240, -260, ItemKind.screw⟩

/-! Helper lemmas. -/

theorem catchStandard_effect (s : GameState) (h : 0 < s.misses) :
    (catchStandard s).misses = s.misses ∧
    (catchStandard s).magicCountdown = s.magicCountdown - 1 ∧
    (catchStandard s).forceMagic =
      (if s.magicCountdown - 1 = 0 then true else s.forceMagic) := by
  unfold catchStandard handleCatch
  simp only [h, if_pos]
  split <;> simp

theorem pity_countdown_fires : ∀ (n : ℕ) (s : GameState), 0 < s.misses →
    s.magicCountdown = n + 1 →
    ((catchStandard^[n + 1]) s).forceMagic = true ∧
    ((catchStandard^[n + 1]) s).misses = s.misses := by
  intro n
  induction n with
  | zero =>
      intro s h1 h2
      have h := catchStandard_effect s h1
      rw [Function.iterate_one]
      refine ⟨?_, h.1⟩
      rw [h.2.2, h2]
      simp
  | succ n ih =>
      intro s h1 h2
      have hs := catchStandard_effect s h1
      have h1a : 0 < (catchStandard s).misses := by rw [hs.1]; exact h1
      have h2a : (catchStandard s).magicCountdown = n + 1 := by
        rw [hs.2.1, h2]
        omega
      have key := ih (catchStandard s) h1a h2a
      rw [Function.iterate_succ_apply]
      exact ⟨key.1, by rw [key.2, hs.1]⟩

theorem relaxationCeiling_le_maxInterval (it : Intellect) (score : ℕ) :
    it.relaxationCeiling score ≤ Intellect.maxInterval := by
  unfold Intellect.relaxationCeiling
  dsimp only
  refine le_trans (min_le_left _ _) ?_
  have h0 : (0:ℚ) ≤ min 1 ((score : ℚ) / Intellect.relaxationTighteningScore) := by
    refine le_min (by norm_num) ?_
    have hs : (0:ℚ) ≤ (score : ℚ) := Nat.cast_nonneg score
    simp only [Intellect.relaxationTighteningScore]
    positivity
  simp only [Intellect.maxInterval, Intellect.minimumRelaxationCap] at *
  nlinarith [h0]

theorem maybeRelax_snd_ge (it : Intellect) (si : ℚ) (score : ℕ) :
    si ≤ (it.maybeRelax si score).2 := by
  unfold Intellect.maybeRelax
  split
  · exact le_rfl
  · split
    · exact le_rfl
    · dsimp only
      exact le_max_left _ _

theorem maybeRelax_snd_le (it : Intellect) (si : ℚ) (score : ℕ) :
    (it.maybeRelax si score).2 ≤ max si (it.relaxationCeiling score) := by
  unfold Intellect.maybeRelax
  split
  · exact le_max_left _ _
  · split
    · exact le_max_left _ _
    · dsimp only
      exact max_le (le_max_left _ _)
        (le_trans (min_le_left _ _) (le_max_right _ _))

theorem applyFishRelaxation_ge (it : Intellect) (s : GameState) :
    s.spawnInterval ≤ (it.applyFishRelaxation s).spawnInterval := by
  unfold Intellect.applyFishRelaxation
  split
  · exact le_rfl
  · dsimp only
    exact le_max_left _ _

theorem applyFishRelaxation_le (it : Intellect) (s : GameState) :
    (it.applyFishRelaxation s).spawnInterval ≤
      max s.spawnInterval (it.relaxationCeiling s.score) := by
  unfold Intellect.applyFishRelaxation
  split
  · exact le_max_left _ _
  · dsimp only
    exact max_le (le_max_left _ _)
      (le_trans (min_le_left _ _) (le_max_right _ _))

theorem tightenInterval_bounds (si : ℚ) (_h1 : Intellect.minInterval ≤ si)
    (h2 : si ≤ Intellect.maxInterval) :
    Intellect.minInterval ≤ tightenInterval si ∧
    tightenInterval si ≤ Intellect.maxInterval := by
  unfold tightenInterval
  simp only [Intellect.minInterval, Intellect.maxInterval] at h2 ⊢
  constructor
  · split
    · exact le_max_left _ _
    · exact le_max_left _ _
  · split
    · exact max_le (by norm_num) (by linarith)
    · exact max_le (by norm_num) (by linarith)

theorem trigger_spawnInterval (it : Intellect) (s : GameState) :
    ((it.trigger s).2).spawnInterval =
      (it.maybeRelax (tightenInterval s.spawnInterval) s.score).2 := rfl

/-! Claim theorems. -/

/-- C1: the spawn interval stays within [minInterval, maxInterval]: it holds
in the initial state, and from any state within bounds it still holds after
the tightening step alone, after the full difficulty trigger (tightening plus
score-threshold relaxation), and after the mercy (fish) relaxation. -/
theorem c1_spawn_interval_bounds (it : Intellect) (s : GameState)
    (h1 : Intellect.minInterval ≤ s.spawnInterval)
    (h2 : s.spawnInterval ≤ Intellect.maxInterval) :
    (Intellect.minInterval ≤ initialGameState.spawnInterval ∧
     initialGameState.spawnInterval ≤ Intellect.maxInterval) ∧
    (Intellect.minInterval ≤ tightenInterval s.spawnInterval ∧
     tightenInterval s.spawnInterval ≤ Intellect.maxInterval) ∧
    (Intellect.minInterval ≤ ((it.trigger s).2).spawnInterval ∧
     ((it.trigger s).2).spawnInterval ≤ Intellect.maxInterval) ∧
    (Intellect.minInterval ≤ (it.applyFishRelaxation s).spawnInterval ∧
     (it.applyFishRelaxation s).spawnInterval ≤ Intellect.maxInterval) := by
  have htight := tightenInterval_bounds s.spawnInterval h1 h2
  refine ⟨⟨?_, ?_⟩, htight, ⟨?_, ?_⟩, ⟨?_, ?_⟩⟩
  · norm_num [initialGameState, Intellect.minInterval]
  · norm_num [initialGameState, Intellect.maxInterval]
  · rw [trigger_spawnInterval]
    exact le_trans htight.1 (maybeRelax_snd_ge it _ s.score)
  · rw [trigger_spawnInterval]
    exact le_trans (maybeRelax_snd_le it _ s.score)
      (max_le htight.2 (relaxationCeiling_le_maxInterval it s.score))
  · exact le_trans h1 (applyFishRelaxation_ge it s)
  · exact le_trans (applyFishRelaxation_le it s)
      (max_le h2 (relaxationCeiling_le_maxInterval it s.score))

/-- C1 witness: the bounds at the initial intellect and game state. -/
theorem c1_spawn_interval_bounds_witness :
    (Intellect.minInterval ≤ initialGameState.spawnInterval ∧
     initialGameState.spawnInterval ≤ Intellect.maxInterval) ∧
    (Intellect.minInterval ≤ tightenInterval initialGameState.spawnInterval ∧
     tightenInterval initialGameState.spawnInterval ≤ Intellect.maxInterval) ∧
    (Intellect.minInterval ≤
       ((intellectInit.trigger initialGameState).2).spawnInterval ∧
     ((intellectInit.trigger initialGameState).2).spawnInterval ≤
       Intellect.maxInterval) ∧
    (Intellect.minInterval ≤
       (intellectInit.applyFishRelaxation initialGameState).spawnInterval ∧
     (intellectInit.applyFishRelaxation initialGameState).spawnInterval ≤
       Intellect.maxInterval) :=
  c1_spawn_interval_bounds intellectInit initialGameState
    (by norm_num [initialGameState, Intellect.minInterval])
    (by norm_num [initialGameState, Intellect.maxInterval])

/-- C6 amended: both relaxation operations are monotone upward, and never
raise the spawn interval above the relaxation ceiling computed at that
instant: the result is at most the maximum of the previous value and the
ceiling, so a value already above the ceiling is left unchanged rather than
pushed below it. -/
theorem c6_relaxation_monotone_bounded (it : Intellect) (si : ℚ)
    (score : ℕ) (s : GameState) :
    (si ≤ (it.maybeRelax si score).2 ∧
     (it.maybeRelax si score).2 ≤ max si (it.relaxationCeiling score)) ∧
    (s.spawnInterval ≤ (it.applyFishRelaxation s).spawnInterval ∧
     (it.applyFishRelaxation s).spawnInterval ≤
       max s.spawnInterval (it.relaxationCeiling s.score)) :=
  ⟨⟨maybeRelax_snd_ge it si score, maybeRelax_snd_le it si score⟩,
   ⟨applyFishRelaxation_ge it s, applyFishRelaxation_le it s⟩⟩

/-- C6 counterexample: with best interval 1900 and score 120 the relaxation
guard passes (1900 is not above best + epsilon) while the ceiling is 900, and
the relaxation step returns 1900, strictly above the ceiling computed at that
instant, so the claim that relaxation never sets the interval above the
ceiling fails. -/
theorem c6_ceiling_exceeded_counterexample :
    (intellectLate.maybeRelax 1900 120).2 = 1900 ∧
    intellectLate.relaxationCeiling 120 = 900 ∧
    ¬ (intellectLate.maybeRelax 1900 120).2 ≤
        intellectLate.relaxationCeiling 120 := by
  have hceil : intellectLate.relaxationCeiling 120 = 900 := by
    simp only [Intellect.relaxationCeiling, intellectLate,
      Intellect.maxInterval, Intellect.minimumRelaxationCap,
      Intellect.relaxationTighteningScore, Intellect.minInterval,
      Intellect.relaxationHeadroom]
    norm_num
  have hval : (intellectLate.maybeRelax 1900 120).2 = 1900 := by
    simp only [Intellect.maybeRelax, intellectLate,
      Intellect.relaxationEntryEpsilon, Intellect.waveRelaxationBoost,
      Intellect.waveScoreStep]
    rw [show (⟨50, 1900, 0⟩ : Intellect).relaxationCeiling 120 = 900 from hceil]
    norm_num
  refine ⟨hval, hceil, ?_⟩
  rw [hval, hceil]
  norm_num

theorem checkFishCatchWindow_closed (c : Cart) (pos : Vec2) :
    checkFishCatchWindow c true pos = (true, false) := by
  by_cases h : pos.y < cartTop c - 36
  · unfold checkFishCatchWindow
    rw [if_pos h]
  · unfold checkFishCatchWindow
    rw [if_neg h, if_pos rfl]

theorem updateFish_closed (c : Cart) (f : Fish) (dt : ℚ) :
    (updateFish c true f dt).2.2 = false ∧
    ((updateFish c true f dt).2.1 = none ∨ (updateFish c true f dt).1 = true) := by
  obtain ⟨ph, ft, fs, ftg, fsp, fcu, fcd⟩ := f
  cases ph
  case up =>
    simp only [updateFish, checkFishCatchWindow_closed]
    split
    · simp_all
    · split <;> simp
  case down =>
    simp only [updateFish]
    split <;> simp

theorem caughtInTrace_none (inputs : List (Cart × ℚ)) (cl : Bool) :
    caughtInTrace inputs cl none = false := by
  cases inputs with
  | nil => rfl
  | cons hd tl => rfl

theorem caughtInTrace_closed : ∀ (inputs : List (Cart × ℚ)) (f : Fish),
    caughtInTrace inputs true (some f) = false := by
  intro inputs
  induction inputs with
  | nil => intro f; rfl
  | cons hd tl ih =>
      intro f
      obtain ⟨c, dt⟩ := hd
      have h := updateFish_closed c f dt
      show ((updateFish c true f dt).2.2 ||
        caughtInTrace tl (updateFish c true f dt).1
          (updateFish c true f dt).2.1) = false
      rw [h.1, Bool.false_or]
      rcases h.2 with hnone | hcl
      · rw [hnone]
        exact caughtInTrace_none tl _
      · rw [hcl]
        cases hfo : (updateFish c true f dt).2.1 with
        | none => exact caughtInTrace_none tl _
        | some f1 => exact ih f1

/-- C8: if the fish crosses above the closing-height threshold of the catch
window, the check closes the window without a catch on that very tick, and
from any tick at which the window is closed no later tick of the same spawn
— for any sequence of cart positions and time steps, through the rest of
ascend and all of descend — ever reports a catch. -/
theorem c8_catch_window_closes_permanently :
    (∀ (c : Cart) (closed : Bool) (pos : Vec2),
       pos.y < cartTop c - 36 →
       checkFishCatchWindow c closed pos = (true, false)) ∧
    (∀ (inputs : List (Cart × ℚ)) (f : Fish),
       caughtInTrace inputs true (some f) = false) := by
  constructor
  · intro c closed pos h
    unfold checkFishCatchWindow
    rw [if_pos h]
  · exact caughtInTrace_closed

/-- C8 witness: a concrete position above the closing threshold closes the
window without a catch, and a concrete closed-window trace catches nothing. -/
theorem c8_catch_window_closes_permanently_witness :
    checkFishCatchWindow cartSample false ⟨0, 0⟩ = (true, false) ∧
    caughtInTrace [(cartSample, 1/10)] true (some fishSample) = false :=
  ⟨c8_catch_window_closes_permanently.1 cartSample false ⟨0, 0⟩
     (by norm_num [cartTop, cartSample, CART_HOLE_HEIGHT, ROBOT_SCALE]),
   c8_catch_window_closes_permanently.2 [(cartSample, 1/10)] fishSample⟩

/-- C3: from any state whose pity countdown equals the reset constant and
whose miss count is positive, exactly MAGIC_COUNTDOWN consecutive standard
catches with no intervening miss or recovery catch set forceMagic, and the
next spawn decision then returns the recovery (magic) kind for every random
draw. -/
theorem c3_pity_timer_forces_recovery (s : GameState)
    (h1 : s.magicCountdown = MAGIC_COUNTDOWN) (h2 : 0 < s.misses) :
    ((catchStandard^[MAGIC_COUNTDOWN]) s).forceMagic = true ∧
    ∀ r : ℚ,
      (nextSpawnType ((catchStandard^[MAGIC_COUNTDOWN]) s) r).2 =
        ItemKind.magic := by
  have key := pity_countdown_fires 29 s h2 (by rw [h1]; rfl)
  have hforce : ((catchStandard^[MAGIC_COUNTDOWN]) s).forceMagic = true := key.1
  have hmiss : 0 < ((catchStandard^[MAGIC_COUNTDOWN]) s).misses := by
    have hm : ((catchStandard^[MAGIC_COUNTDOWN]) s).misses = s.misses := key.2
    rw [hm]
    exact h2
  refine ⟨hforce, fun r => ?_⟩
  simp [nextSpawnType, hforce, hmiss]

/-- C3 witness: the concrete pity-start state with one outstanding miss. -/
theorem c3_pity_timer_forces_recovery_witness :
    ((catchStandard^[MAGIC_COUNTDOWN]) pityStartState).forceMagic = true ∧
    (nextSpawnType ((catchStandard^[MAGIC_COUNTDOWN]) pityStartState) 0).2 =
      ItemKind.magic :=
  ⟨(c3_pity_timer_forces_recovery pityStartState rfl (by decide)).1,
   (c3_pity_timer_forces_recovery pityStartState rfl (by decide)).2 0⟩

/-- C9: catching a recovery (magic) item lowers misses by exactly one when
misses is positive, leaves misses at zero when it is zero, never raises
misses, adds 10 to the score, and resets the pity countdown to its
constant. -/
theorem c9_recovery_catch_effect (s : GameState) :
    (0 < s.misses → (handleCatch s ItemKind.magic).misses + 1 = s.misses) ∧
    (s.misses = 0 → (handleCatch s ItemKind.magic).misses = 0) ∧
    (handleCatch s ItemKind.magic).misses ≤ s.misses ∧
    (handleCatch s ItemKind.magic).score = s.score + 10 ∧
    (handleCatch s ItemKind.magic).magicCountdown = MAGIC_COUNTDOWN := by
  have hm : (handleCatch s ItemKind.magic).misses = s.misses - 1 := by
    simp only [handleCatch]
    split <;> rfl
  have hsc : (handleCatch s ItemKind.magic).score = s.score + 10 := by
    simp only [handleCatch]
    split <;> rfl
  have hmc : (handleCatch s ItemKind.magic).magicCountdown = MAGIC_COUNTDOWN := by
    simp only [handleCatch]
    split <;> rfl
  refine ⟨fun h => ?_, fun h => ?_, ?_, hsc, hmc⟩
  · rw [hm]; omega
  · rw [hm, h]
  · rw [hm]; omega

/-- C9 witness: a recovery catch at two outstanding misses. -/
theorem c9_recovery_catch_effect_witness :
    0 < ({ initialGameState with misses := 2 } : GameState).misses ∧
    (handleCatch { initialGameState with misses := 2 } ItemKind.magic).misses
      + 1 = 2 ∧
    (handleCatch { initialGameState with misses := 2 } ItemKind.magic).score
      = 10 ∧
    (handleCatch { initialGameState with misses := 2 }
      ItemKind.magic).magicCountdown = MAGIC_COUNTDOWN :=
  ⟨by decide,
   (c9_recovery_catch_effect { initialGameState with misses := 2 }).1
     (by decide),
   (c9_recovery_catch_effect { initialGameState with misses := 2 }).2.2.2.1,
   (c9_recovery_catch_effect { initialGameState with misses := 2 }).2.2.2.2⟩

/-- C10: whenever the spawn-type decision fires the forced branch (forceMagic
set and misses positive), it returns the recovery kind and, at the decision
itself, clears forceMagic and resets the pity countdown, independent of the
random draw and of whether the spawned item is later caught; the cleared flag
means each pity trigger yields exactly one forced recovery spawn. -/
theorem c10_forced_spawn_consumes_flag (s : GameState) (r : ℚ)
    (h1 : s.forceMagic = true) (h2 : 0 < s.misses) :
    nextSpawnType s r =
      ({ s with forceMagic := false, magicCountdown := MAGIC_COUNTDOWN },
       ItemKind.magic) := by
  simp [nextSpawnType, h1, h2]

/-- C10 witness: the forced branch at a concrete state. -/
theorem c10_forced_spawn_consumes_flag_witness :
    nextSpawnType { initialGameState with misses := 1, forceMagic := true }
        (1/2) =
      ({ initialGameState with
         misses := 1
         forceMagic := false
         magicCountdown := MAGIC_COUNTDOWN }, ItemKind.magic) :=
  c10_forced_spawn_consumes_flag
    { initialGameState with misses := 1, forceMagic := true } (1/2)
    rfl (by decide)

/-- C2 counterexample: in a concrete world one miss from game over with an
active bonus fish, the miss ends the game and empties the item list, yet the
active bonus projectile is still present afterwards, so the claim that every
live projectile including the bonus one is removed fails. -/
theorem c2_game_over_keeps_fish_counterexample :
    (handleMiss worldSample itemSample).gs.playing = false ∧
    (handleMiss worldSample itemSample).items = [] ∧
    (handleMiss worldSample itemSample).activeFish = some fishSample ∧
    (handleMiss worldSample itemSample).activeFish ≠ none := by
  refine ⟨rfl, rfl, rfl, ?_⟩
  intro h
  simp [handleMiss, worldSample, requestMagicGuarantee, endGame,
    MAX_MISSES] at h

/-- C2 amended: when a miss raises misses to maxMisses, playing becomes false
and the live item list becomes empty, but the active bonus projectile is left
untouched by the transition. -/
theorem c2_game_over_clears_items (w : World) (i : Item)
    (h : MAX_MISSES ≤ w.gs.misses + 1) :
    (handleMiss w i).gs.playing = false ∧
    (handleMiss w i).items = [] ∧
    (handleMiss w i).activeFish = w.activeFish := by
  have hmiss :
      (requestMagicGuarantee { w.gs with misses := w.gs.misses + 1 }).misses =
        w.gs.misses + 1 := by
    simp only [requestMagicGuarantee]
    split <;> rfl
  simp only [handleMiss, hmiss, if_pos h, endGame]
  exact ⟨trivial, trivial, trivial⟩

/-- C2 witness: the amended claim at the concrete world one miss from game
over. -/
theorem c2_game_over_clears_items_witness :
    (handleMiss worldSample itemSample).gs.playing = false ∧
    (handleMiss worldSample itemSample).items = [] ∧
    (handleMiss worldSample itemSample).activeFish = worldSample.activeFish :=
  c2_game_over_clears_items worldSample itemSample (by decide)

/-- C4 (evidence of the code bug): pausing only toggles the ticker and leaves
the whole game state, in particular lastSpawnTime, untouched, while the
spawn-cadence and fish-arrival tests compare against the wall clock; with
lastSpawnTime 0 and interval 2000 no spawn is due at time 1000, but after a
pause lasting until time 6000 a spawn and an armed fish arrival both fire on
the first resumed tick. -/
theorem c4_pause_uses_wall_clock :
    (∀ (s : GameState) (t : Bool), (togglePause s t).1 = s) ∧
    spawnDue 1000 0 2000 = false ∧
    spawnDue 6000 0 2000 = true ∧
    maybeSpawnFishFires true false 6000 3000 = true := by
  refine ⟨fun s t => ?_, ?_, ?_, ?_⟩
  · simp only [togglePause]
    split <;> rfl
  · simp only [spawnDue, decide_eq_false_iff_not]
    norm_num
  · simp only [spawnDue, decide_eq_true_eq]
    norm_num
  · simp only [maybeSpawnFishFires, Bool.not_false, Bool.true_and,
      Bool.and_eq_true, decide_eq_true_eq]
    norm_num

/-- C5 counterexample: from the initial state, a single standard catch sets
the score to 10 but leaves spawnInterval exactly at 2000, so the claim that
the catch decreases spawnInterval by the large-step amount fails. -/
theorem c5_catch_leaves_interval_counterexample :
    (catchStandard initialGameState).score = 10 ∧
    (catchStandard initialGameState).spawnInterval =
      initialGameState.spawnInterval ∧
    ¬ (catchStandard initialGameState).spawnInterval <
        initialGameState.spawnInterval := by
  refine ⟨rfl, rfl, ?_⟩
  exact lt_irrefl _

/-- C5 amended: a single standard catch from the initial state yields score 10
and leaves spawnInterval unchanged at 2000; the difficulty controller instead
updates at each spawn trigger, where one trigger from the initial state
decreases spawnInterval by the large-step amount 0.96 (the regime while the
interval exceeds 500), leaving 1999.04, still above 500. -/
theorem c5_difficulty_updates_on_spawn :
    (catchStandard initialGameState).score = 10 ∧
    (catchStandard initialGameState).spawnInterval = 2000 ∧
    (intellectInit.trigger initialGameState).2.spawnInterval =
      2000 - 96/100 ∧
    500 < (intellectInit.trigger initialGameState).2.spawnInterval := by
  have htrig : (intellectInit.trigger initialGameState).2.spawnInterval =
      2000 - 96/100 := by
    simp only [Intellect.trigger, Intellect.maybeRelax, tightenInterval,
      intellectInit, initialGameState, Intellect.minInterval,
      Intellect.waveScoreStep]
    norm_num
  refine ⟨rfl, rfl, htrig, ?_⟩
  rw [htrig]
  norm_num

/-- C7 (evidence of the code bug): the dt computation divides the raw ticker
delta by 60 with no clamping, so a negative delta yields a negative dt and the
integration step moves an item backwards, while a zero dt leaves the item
unchanged; the claimed clamping of negative dt to zero is absent. -/
theorem c7_negative_dt_not_clamped :
    updateDt (-1) < 0 ∧
    (stepItem (updateDt (-1)) itemNegDt).x < itemNegDt.x ∧
    stepItem 0 itemNegDt = itemNegDt := by
  refine ⟨?_, ?_, ?_⟩
  · norm_num [updateDt]
  · norm_num [stepItem, updateDt, itemNegDt, GRAVITY]
  · norm_num [stepItem, itemNegDt, GRAVITY]

end Catchbot
